import Mathlib

/-!
Verification of the BallisticLaunch trajectory engine.

The Python class `Simulation` (src/BallisticLaunch/main.py) is embedded as a
Lean structure over the reals together with one function per method.  The
`launch` while-loop is modelled with an explicit fuel parameter: `none` means
the loop has not finished within the given number of iterations, so genuine
non-termination of the Python loop corresponds to the model returning `none`
for every fuel.
-/

namespace BallisticLaunch

/-- numpy's `deg2rad`: converts an angle in degrees to radians. -/
noncomputable def deg2rad (x : ℝ) : ℝ := x * (Real.pi / 180)

/-- The attributes of the Python class `Simulation`.  `trajectory_array` is
`none` until `launch` has first assigned it. -/
structure Simulation where
  initial_velocity : ℝ
  y_initial_velocity : ℝ
  x_initial_velocity : ℝ
  launch_angle : ℝ
  grav_acc : ℝ
  launch_coordx : ℝ
  launch_coordy : ℝ
  step : ℝ
  trajectory_array : Option (List (ℝ × ℝ))

/-- `Simulation.__init__`: the velocity components are derived from the speed
and the angle converted to radians. -/
noncomputable def Simulation.init (v0 theta g : ℝ) (launch_coord : ℝ × ℝ) (step : ℝ) :
    Simulation where
  initial_velocity := v0
  y_initial_velocity := v0 * Real.sin (deg2rad theta)
  x_initial_velocity := v0 * Real.cos (deg2rad theta)
  launch_angle := theta
  grav_acc := g
  launch_coordx := launch_coord.1
  launch_coordy := launch_coord.2
  step := step
  trajectory_array := none

def Simulation.get_v0 (s : Simulation) : ℝ := s.initial_velocity

def Simulation.get_vy0 (s : Simulation) : ℝ := s.y_initial_velocity

def Simulation.get_vx0 (s : Simulation) : ℝ := s.x_initial_velocity

def Simulation.get_theta (s : Simulation) : ℝ := s.launch_angle

def Simulation.get_g (s : Simulation) : ℝ := s.grav_acc

def Simulation.get_launch_coord (s : Simulation) : ℝ × ℝ :=
  (s.launch_coordx, s.launch_coordy)

def Simulation.get_step (s : Simulation) : ℝ := s.step

def Simulation.set_vy0 (s : Simulation) (vy0 : ℝ) : Simulation :=
  { s with y_initial_velocity := vy0 }

def Simulation.set_vx0 (s : Simulation) (vx0 : ℝ) : Simulation :=
  { s with x_initial_velocity := vx0 }

/-- `Simulation.set_v0`: exactly as in the source, the trigonometric functions
are applied to `get_theta` directly, without `deg2rad`. -/
noncomputable def Simulation.set_v0 (s : Simulation) (v0 : ℝ) : Simulation :=
  let s1 : Simulation := { s with initial_velocity := v0 }
  let s2 : Simulation := s1.set_vx0 (v0 * Real.cos s1.get_theta)
  s2.set_vy0 (v0 * Real.sin s2.get_theta)

def Simulation.set_theta (s : Simulation) (theta : ℝ) : Simulation :=
  { s with launch_angle := theta }

def Simulation.set_g (s : Simulation) (g : ℝ) : Simulation :=
  { s with grav_acc := g }

def Simulation.set_launch_coord (s : Simulation) (launch_coord : ℝ × ℝ) : Simulation :=
  { s with launch_coordx := launch_coord.1, launch_coordy := launch_coord.2 }

def Simulation.set_step (s : Simulation) (step : ℝ) : Simulation :=
  { s with step := step }

/-- `Simulation.get_time_flight`: `2.0 * self.get_vy0() / self.get_g()`. -/
noncomputable def Simulation.get_time_flight (s : Simulation) : ℝ :=
  2 * s.get_vy0 / s.get_g

/-- `Simulation.get_max_height`: `self.get_vy0() ** 2.0 / (2.0 * self.get_g())`. -/
noncomputable def Simulation.get_max_height (s : Simulation) : ℝ :=
  s.get_vy0 ^ 2 / (2 * s.get_g)

/-- `Simulation.get_range`:
`self.get_v0() ** 2.0 * np.sin(np.deg2rad(2.0 * self.get_theta())) / self.get_g()`. -/
noncomputable def Simulation.get_range (s : Simulation) : ℝ :=
  s.get_v0 ^ 2 * Real.sin (deg2rad (2 * s.get_theta)) / s.get_g

/-- `Simulation._evolve_system`: the 2x3 matrix
`[[vx, 0, cx], [vy, -0.5*g, cy]]` applied to the column `[t, t^2, 1]`. -/
def Simulation.evolve_system (s : Simulation) (t : ℝ) : ℝ × ℝ :=
  (s.get_vx0 * t + 0 * t ^ 2 + s.get_launch_coord.1 * 1,
   s.get_vy0 * t + -1 * 0.5 * s.get_g * t ^ 2 + s.get_launch_coord.2 * 1)

/-- The `while t < t_max` loop of `Simulation.launch`, with fuel counting the
remaining iterations the model is willing to run; `none` means the loop did
not finish within `fuel` iterations. -/
noncomputable def Simulation.evolveLoop (s : Simulation) (t_max h : ℝ) :
    ℕ → ℝ → Option (List (ℝ × ℝ))
  | 0, t => if t < t_max then none else some []
  | n + 1, t =>
    if t < t_max then
      (Simulation.evolveLoop s t_max h n (t + h)).map fun rest => s.evolve_system t :: rest
    else some []

/-- The one exception class of the source, `FlightTimeException`; as in the
source the message carries `self.get_time_flight()`. -/
inductive LaunchError where
  | flightTimeException (timeOfFlight : ℝ)

/-- `Simulation.launch`: computes `t_max`, raises `FlightTimeException t_max`
when `t_max ≤ 0`, otherwise runs the sampling loop from `t = 0` and stores the
produced list in `trajectory_array` before returning it.  The returned state is
the post-call object; `none` means the loop ran out of fuel. -/
noncomputable def Simulation.launchF (s : Simulation) (fuel : ℕ) :
    Option (Simulation × Except LaunchError (List (ℝ × ℝ))) :=
  let t_max := s.get_time_flight
  let h := s.get_step
  if t_max ≤ 0 then
    some (s, Except.error (LaunchError.flightTimeException s.get_time_flight))
  else
    match Simulation.evolveLoop s t_max h fuel 0 with
    | none => none
    | some positions =>
      some ({ s with trajectory_array := some positions }, Except.ok positions)

/-- `launch` diverges: the loop finishes for no amount of fuel. -/
def Simulation.launchDiverges (s : Simulation) : Prop :=
  ∀ fuel : ℕ, s.launchF fuel = none

/-- The trajectory as the specification describes it: `ceil(flightTime/step)`
samples, the i-th taken at `t = i * step` with
`x(t) = velocityX*t + launchX` and `y(t) = velocityY*t - 0.5*gravity*t^2 + launchY`. -/
noncomputable def specTrajectory (s : Simulation) : List (ℝ × ℝ) :=
  (List.range (Nat.ceil (s.get_time_flight / s.get_step))).map fun i : ℕ =>
    (s.get_vx0 * ((i : ℝ) * s.get_step) + s.launch_coordx,
     s.get_vy0 * ((i : ℝ) * s.get_step) - 0.5 * s.get_g * ((i : ℝ) * s.get_step) ^ 2 +
       s.launch_coordy)

/-- Concrete test state: speed 10, angle 90 degrees, gravity 10, origin, step 1. -/
noncomputable def exampleSim : Simulation := Simulation.init 10 90 10 (0, 0) 1

/-- Its trajectory: two samples, at t = 0 and t = 1. -/
def exampleTraj : List (ℝ × ℝ) := [(0, 0), (0, 5)]

/-- Concrete test state post-launch. -/
noncomputable def exampleSimAfter : Simulation :=
  { exampleSim with trajectory_array := some exampleTraj }

/-- Concrete infeasible state: angle 0 gives flight time 0. -/
noncomputable def exampleBad : Simulation := Simulation.init 10 0 10 (0, 0) 1

/-- Concrete state with a negative step and a positive flight time. -/
noncomputable def exampleNeg : Simulation := Simulation.init 10 90 10 (0, 0) (-1)

/-- Concrete infeasible state that carries a previously stored trajectory. -/
noncomputable def exampleBadTraj : Simulation :=
  { exampleBad with trajectory_array := some exampleTraj }

theorem evolve_system_eq (s : Simulation) (t : ℝ) :
    s.evolve_system t =
      (s.get_vx0 * t + s.launch_coordx,
       s.get_vy0 * t - 0.5 * s.get_g * t ^ 2 + s.launch_coordy) := by
  unfold Simulation.evolve_system Simulation.get_launch_coord
  simp only [Prod.mk.injEq]
  constructor <;> ring

theorem natCeil_sub_one (x : ℝ) : Nat.ceil (x - 1) = Nat.ceil x - 1 := by
  rcases le_or_lt x 1 with hx | hx
  · have h1 : Nat.ceil (x - 1) = 0 := Nat.ceil_eq_zero.mpr (by linarith)
    have h2 : Nat.ceil x ≤ 1 := by
      have : x ≤ ((1 : ℕ) : ℝ) := by exact_mod_cast hx
      exact Nat.ceil_le.mpr this
    omega
  · have hn2 : 2 ≤ Nat.ceil x := by
      by_contra hcon
      have h1 : Nat.ceil x ≤ 1 := by omega
      have : x ≤ ((1 : ℕ) : ℝ) := Nat.le_of_ceil_le h1
      push_cast at this
      linarith
    have hchar := (Nat.ceil_eq_iff (by omega : Nat.ceil x ≠ 0)).mp rfl
    have hupper : x ≤ (Nat.ceil x : ℝ) := hchar.2
    have hlower : ((Nat.ceil x - 1 : ℕ) : ℝ) < x := hchar.1
    have hlower' : (Nat.ceil x : ℝ) - 1 < x := by
      have : ((Nat.ceil x - 1 : ℕ) : ℝ) = (Nat.ceil x : ℝ) - 1 := by
        push_cast [Nat.cast_sub (by omega : 1 ≤ Nat.ceil x)]
        ring
      linarith [this ▸ hlower]
    refine (Nat.ceil_eq_iff (by omega : Nat.ceil x - 1 ≠ 0)).mpr ⟨?_, ?_⟩
    · have : ((Nat.ceil x - 1 - 1 : ℕ) : ℝ) = (Nat.ceil x : ℝ) - 2 := by
        push_cast [Nat.cast_sub (by omega : 1 ≤ Nat.ceil x - 1),
          Nat.cast_sub (by omega : 1 ≤ Nat.ceil x)]
        ring
      rw [this]
      linarith
    · have : ((Nat.ceil x - 1 : ℕ) : ℝ) = (Nat.ceil x : ℝ) - 1 := by
        push_cast [Nat.cast_sub (by omega : 1 ≤ Nat.ceil x)]
        ring
      rw [this]
      linarith

/-- Closed form of the sampling loop: with a positive step and enough fuel, the
loop started at `t` returns exactly the samples at `t, t+h, t+2h, ...` that are
strictly below `t_max`. -/
theorem evolveLoop_closed_form (s : Simulation) (t_max h : ℝ) (hh : 0 < h) :
    ∀ (n : ℕ) (t : ℝ), Nat.ceil ((t_max - t) / h) ≤ n →
      Simulation.evolveLoop s t_max h n t =
        some ((List.range (Nat.ceil ((t_max - t) / h))).map fun i : ℕ =>
          s.evolve_system (t + (i : ℝ) * h)) := by
  intro n
  induction n with
  | zero =>
    intro t hfuel
    have hceil : Nat.ceil ((t_max - t) / h) = 0 := by omega
    have hnonpos : (t_max - t) / h ≤ 0 := Nat.ceil_eq_zero.mp hceil
    have hle : t_max ≤ t := by
      by_contra hcon
      push_neg at hcon
      have : 0 < (t_max - t) / h := div_pos (by linarith) hh
      linarith
    unfold Simulation.evolveLoop
    rw [if_neg (by linarith), hceil]
    simp
  | succ n ih =>
    intro t hfuel
    by_cases hlt : t < t_max
    · have hpos : 0 < (t_max - t) / h := div_pos (by linarith) hh
      have hceilpos : 0 < Nat.ceil ((t_max - t) / h) := Nat.ceil_pos.mpr hpos
      have hstep : Nat.ceil ((t_max - (t + h)) / h) = Nat.ceil ((t_max - t) / h) - 1 := by
        have harg : (t_max - (t + h)) / h = (t_max - t) / h - 1 := by
          field_simp
          ring
        rw [harg, natCeil_sub_one]
      unfold Simulation.evolveLoop
      rw [if_pos hlt, ih (t + h) (by omega)]
      rw [hstep]
      obtain ⟨m, hm⟩ : ∃ m, Nat.ceil ((t_max - t) / h) = m + 1 :=
        ⟨Nat.ceil ((t_max - t) / h) - 1, by omega⟩
      rw [hm]
      simp only [Nat.add_sub_cancel, Option.map_some', Option.some.injEq]
      rw [List.range_succ_eq_map]
      simp only [List.map_cons, List.map_map]
      refine congrArg₂ List.cons ?_ ?_
      · norm_num
      · apply List.map_congr_left
        intro i _
        simp only [Function.comp_apply]
        congr 1
        push_cast
        ring
    · have hceil : Nat.ceil ((t_max - t) / h) = 0 := by
        apply Nat.ceil_eq_zero.mpr
        apply div_nonpos_of_nonpos_of_nonneg (by linarith) (le_of_lt hh)
      unfold Simulation.evolveLoop
      rw [if_neg hlt, hceil]
      simp

/-- Full behaviour of a successful `launch`: with positive flight time,
positive step and enough fuel, it returns the specification trajectory and
stores it. -/
theorem launchF_spec (s : Simulation) (fuel : ℕ)
    (hT : 0 < s.get_time_flight) (hh : 0 < s.get_step)
    (hfuel : Nat.ceil (s.get_time_flight / s.get_step) ≤ fuel) :
    s.launchF fuel =
      some ({ s with trajectory_array := some (specTrajectory s) },
        Except.ok (specTrajectory s)) := by
  unfold Simulation.launchF
  rw [if_neg (by linarith)]
  have hclosed := evolveLoop_closed_form s s.get_time_flight s.get_step hh fuel 0
    (by simpa using hfuel)
  rw [show s.get_time_flight - 0 = s.get_time_flight by ring] at hclosed
  have hlist : (List.range (Nat.ceil (s.get_time_flight / s.get_step))).map
      (fun i : ℕ => s.evolve_system (0 + (i : ℝ) * s.get_step)) = specTrajectory s := by
    unfold specTrajectory
    apply List.map_congr_left
    intro i _
    rw [evolve_system_eq]
    norm_num
  rw [hlist] at hclosed
  rw [hclosed]

/-- A successful `launch` returns the input state with only `trajectory_array`
replaced by the produced list. -/
theorem launchF_ok_shape (s : Simulation) (fuel : ℕ) (s' : Simulation) (L : List (ℝ × ℝ))
    (h : s.launchF fuel = some (s', Except.ok L)) :
    s' = { s with trajectory_array := some L } := by
  unfold Simulation.launchF at h
  by_cases ht : s.get_time_flight ≤ 0
  · rw [if_pos ht] at h
    simp at h
  · rw [if_neg ht] at h
    rcases hev : s.evolveLoop s.get_time_flight s.get_step fuel 0 with _ | positions
    · rw [hev] at h
      simp at h
    · rw [hev] at h
      simp only [Option.some.injEq, Prod.mk.injEq, Except.ok.injEq] at h
      obtain ⟨h1, h2⟩ := h
      rw [← h1, h2]

/-- A failing `launch` raises before anything is assigned: the returned state
is the input state and the error is the flight-time exception. -/
theorem launchF_error_shape (s : Simulation) (fuel : ℕ) (s' : Simulation) (e : LaunchError)
    (h : s.launchF fuel = some (s', Except.error e)) :
    s' = s ∧ e = LaunchError.flightTimeException s.get_time_flight ∧
      s.get_time_flight ≤ 0 := by
  unfold Simulation.launchF at h
  by_cases ht : s.get_time_flight ≤ 0
  · rw [if_pos ht] at h
    simp only [Option.some.injEq, Prod.mk.injEq, Except.error.injEq] at h
    exact ⟨h.1.symm, h.2.symm, ht⟩
  · rw [if_neg ht] at h
    rcases hev : s.evolveLoop s.get_time_flight s.get_step fuel 0 with _ | positions
    · rw [hev] at h
      simp at h
    · rw [hev] at h
      simp at h

/-- With a non-positive flight time, `launch` raises the flight-time exception
immediately, for every fuel. -/
theorem launchF_error_of_nonpos (s : Simulation) (fuel : ℕ)
    (ht : s.get_time_flight ≤ 0) :
    s.launchF fuel =
      some (s, Except.error (LaunchError.flightTimeException s.get_time_flight)) := by
  unfold Simulation.launchF
  rw [if_pos ht]

/-- With a non-positive step and a positive bound, the loop never exits:
starting from any `t ≤ 0` it runs out of any amount of fuel. -/
theorem evolveLoop_none_of_nonpos_step (s : Simulation) (t_max h : ℝ)
    (hmax : 0 < t_max) (hh : h ≤ 0) :
    ∀ (n : ℕ) (t : ℝ), t ≤ 0 → Simulation.evolveLoop s t_max h n t = none := by
  intro n
  induction n with
  | zero =>
    intro t ht
    unfold Simulation.evolveLoop
    rw [if_pos (by linarith)]
  | succ n ih =>
    intro t ht
    unfold Simulation.evolveLoop
    rw [if_pos (by linarith), ih (t + h) (by linarith)]
    rfl

/-- The divergence of `launch` for non-positive step and positive flight time. -/
theorem launchF_diverges_of_nonpos_step (s : Simulation)
    (hT : 0 < s.get_time_flight) (hst : s.get_step ≤ 0) :
    s.launchDiverges := by
  intro fuel
  unfold Simulation.launchF
  rw [if_neg (by linarith),
    evolveLoop_none_of_nonpos_step s _ _ hT hst fuel 0 le_rfl]

theorem deg2rad_ninety : deg2rad 90 = Real.pi / 2 := by
  unfold deg2rad
  ring

theorem exampleSim_vy : exampleSim.y_initial_velocity = 10 := by
  show 10 * Real.sin (deg2rad 90) = 10
  rw [deg2rad_ninety, Real.sin_pi_div_two]
  norm_num

theorem exampleSim_vx : exampleSim.x_initial_velocity = 0 := by
  show 10 * Real.cos (deg2rad 90) = 0
  rw [deg2rad_ninety, Real.cos_pi_div_two]
  norm_num

theorem exampleSim_tmax : exampleSim.get_time_flight = 2 := by
  unfold Simulation.get_time_flight Simulation.get_vy0 Simulation.get_g
  rw [exampleSim_vy]
  show 2 * 10 / 10 = 2
  norm_num

theorem exampleSim_step : exampleSim.get_step = 1 := rfl

theorem exampleSim_ceil : Nat.ceil (exampleSim.get_time_flight / exampleSim.get_step) = 2 := by
  rw [exampleSim_tmax, exampleSim_step]
  norm_num

theorem exampleSim_specTrajectory : specTrajectory exampleSim = exampleTraj := by
  unfold specTrajectory
  rw [exampleSim_ceil]
  show List.map _ [0, 1] = exampleTraj
  simp only [List.map_cons, List.map_nil]
  unfold exampleTraj
  rw [exampleSim_step]
  have hvx : exampleSim.get_vx0 = 0 := exampleSim_vx
  have hvy : exampleSim.get_vy0 = 10 := exampleSim_vy
  have hg : exampleSim.get_g = 10 := rfl
  have hcx : exampleSim.launch_coordx = 0 := rfl
  have hcy : exampleSim.launch_coordy = 0 := rfl
  rw [hvx, hvy, hg, hcx, hcy]
  norm_num

theorem exampleSim_launch :
    exampleSim.launchF 2 = some (exampleSimAfter, Except.ok exampleTraj) := by
  have h := launchF_spec exampleSim 2 (by rw [exampleSim_tmax]; norm_num)
    (by rw [exampleSim_step]; norm_num) (by rw [exampleSim_ceil])
  rw [exampleSim_specTrajectory] at h
  exact h

theorem exampleBad_tmax : exampleBad.get_time_flight = 0 := by
  unfold Simulation.get_time_flight Simulation.get_vy0 Simulation.get_g
  show 2 * (10 * Real.sin (deg2rad 0)) / 10 = 0
  unfold deg2rad
  norm_num

theorem exampleNeg_tmax : exampleNeg.get_time_flight = 2 := by
  unfold Simulation.get_time_flight Simulation.get_vy0 Simulation.get_g
  show 2 * (10 * Real.sin (deg2rad 90)) / 10 = 2
  rw [deg2rad_ninety, Real.sin_pi_div_two]
  norm_num

theorem exampleBadTraj_tmax : exampleBadTraj.get_time_flight = 0 := exampleBad_tmax

/-- C1: the claim that after `set_v0 v` the stored x-velocity equals
`v * cos(angle converted to radians)` fails: `set_v0` applies `cos` to the
angle in degrees without `deg2rad`, so at angle 360 the stored component is
`2 * cos 360` while the claim demands `2 * cos (2π) = 2`. -/
theorem set_v0_skips_deg2rad :
    ((Simulation.init 2 360 10 (0, 0) 1).set_v0 2).x_initial_velocity ≠
      2 * Real.cos (deg2rad ((Simulation.init 2 360 10 (0, 0) 1).set_v0 2).get_theta) := by
  have hlhs : ((Simulation.init 2 360 10 (0, 0) 1).set_v0 2).x_initial_velocity
      = 2 * Real.cos 360 := rfl
  have htheta : ((Simulation.init 2 360 10 (0, 0) 1).set_v0 2).get_theta = 360 := rfl
  rw [hlhs, htheta]
  have hdeg : deg2rad 360 = 2 * Real.pi := by
    unfold deg2rad
    ring
  rw [hdeg, Real.cos_two_pi]
  intro heq
  have hcos : Real.cos 360 = 1 := by linarith
  obtain ⟨n, hn⟩ := (Real.cos_eq_one_iff 360).mp hcos
  have hpi1 : (3.14 : ℝ) < Real.pi := Real.pi_gt_d2
  have hpi2 : Real.pi < 3.15 := Real.pi_lt_d2
  rcases le_or_lt (n : ℝ) 57 with hle | hlt
  · have hmul : (n : ℝ) * (2 * Real.pi) ≤ 57 * (2 * Real.pi) :=
      mul_le_mul_of_nonneg_right hle (by positivity)
    nlinarith
  · have h57 : (57 : ℤ) < n := by exact_mod_cast hlt
    have h58 : (58 : ℝ) ≤ (n : ℝ) := by exact_mod_cast h57
    have hmul : (58 : ℝ) * (2 * Real.pi) ≤ (n : ℝ) * (2 * Real.pi) :=
      mul_le_mul_of_nonneg_right h58 (by positivity)
    nlinarith

/-- C2: for every state with positive flight time and positive step, given
enough fuel for the loop to finish, `launch` returns a list whose i-th
element is `(velocityX * t_i + launchX, velocityY * t_i - 0.5*gravity*t_i^2 + launchY)`
with `t_i = i * step`, and an index contributes exactly when `t_i < flightTime`
(so the first sample is the one at `t = 0`). -/
theorem launch_samples_formula (s : Simulation) (fuel : ℕ)
    (hT : 0 < s.get_time_flight) (hh : 0 < s.get_step)
    (hfuel : Nat.ceil (s.get_time_flight / s.get_step) ≤ fuel) :
    ∃ (s' : Simulation) (L : List (ℝ × ℝ)),
      s.launchF fuel = some (s', Except.ok L) ∧
      (∀ i : ℕ, i < L.length ↔ (i : ℝ) * s.get_step < s.get_time_flight) ∧
      (∀ (i : ℕ) (hi : i < L.length),
        L.get ⟨i, hi⟩ =
          (s.get_vx0 * ((i : ℝ) * s.get_step) + s.launch_coordx,
           s.get_vy0 * ((i : ℝ) * s.get_step) -
             0.5 * s.get_g * ((i : ℝ) * s.get_step) ^ 2 + s.launch_coordy)) := by
  refine ⟨_, _, launchF_spec s fuel hT hh hfuel, ?_, ?_⟩
  · intro i
    unfold specTrajectory
    rw [List.length_map, List.length_range, Nat.lt_ceil, lt_div_iff₀ hh]
  · intro i hi
    unfold specTrajectory
    simp only [List.get_eq_getElem, List.getElem_map, List.getElem_range]

/-- C3: the produced list has exactly `ceil(flightTime / step)` samples and is
stored as the new trajectory. -/
theorem launch_sample_count (s : Simulation) (fuel : ℕ)
    (hT : 0 < s.get_time_flight) (hh : 0 < s.get_step)
    (hfuel : Nat.ceil (s.get_time_flight / s.get_step) ≤ fuel) :
    ∃ (s' : Simulation) (L : List (ℝ × ℝ)),
      s.launchF fuel = some (s', Except.ok L) ∧
      L.length = Nat.ceil (s.get_time_flight / s.get_step) ∧
      s'.trajectory_array = some L := by
  refine ⟨_, _, launchF_spec s fuel hT hh hfuel, ?_, rfl⟩
  unfold specTrajectory
  rw [List.length_map, List.length_range]

/-- C4: `launch` raises the flight-time exception exactly when the computed
flight time is non-positive, the exception carries that value, and no other
error is ever produced. -/
theorem launch_error_iff (s : Simulation) (fuel : ℕ) :
    (s.launchF fuel =
        some (s, Except.error (LaunchError.flightTimeException s.get_time_flight)) ↔
      s.get_time_flight ≤ 0) ∧
    ∀ (s' : Simulation) (e : LaunchError),
      s.launchF fuel = some (s', Except.error e) →
        s.get_time_flight ≤ 0 ∧ e = LaunchError.flightTimeException s.get_time_flight := by
  constructor
  · constructor
    · intro h
      exact (launchF_error_shape s fuel s _ h).2.2
    · exact launchF_error_of_nonpos s fuel
  · intro s' e h
    obtain ⟨h1, h2, h3⟩ := launchF_error_shape s fuel s' e h
    exact ⟨h3, h2⟩

/-- C5: for a freshly constructed state with positive speed, angle strictly
between 0 and 180 degrees, positive gravity and positive step, `launch`
succeeds, the result is non-empty and every sample's y-coordinate is at least
the launch height. -/
theorem launch_succeeds_above_launch_height
    (v0 theta g : ℝ) (c : ℝ × ℝ) (st : ℝ) (fuel : ℕ)
    (hv : 0 < v0) (hth0 : 0 < theta) (hth1 : theta < 180) (hg : 0 < g) (hst : 0 < st)
    (hfuel : Nat.ceil ((Simulation.init v0 theta g c st).get_time_flight / st) ≤ fuel) :
    ∃ (s' : Simulation) (L : List (ℝ × ℝ)),
      (Simulation.init v0 theta g c st).launchF fuel = some (s', Except.ok L) ∧
      L ≠ [] ∧ ∀ p ∈ L, c.2 ≤ p.2 := by
  set s : Simulation := Simulation.init v0 theta g c st with hs
  have hvy : s.get_vy0 = v0 * Real.sin (deg2rad theta) := rfl
  have hsg : s.get_g = g := rfl
  have hstep : s.get_step = st := rfl
  have hsin : 0 < Real.sin (deg2rad theta) := by
    apply Real.sin_pos_of_pos_of_lt_pi
    · unfold deg2rad
      positivity
    · unfold deg2rad
      have hpi : (0 : ℝ) < Real.pi / 180 := by positivity
      have := mul_lt_mul_of_pos_right hth1 hpi
      have h180 : (180 : ℝ) * (Real.pi / 180) = Real.pi := by ring
      linarith
  have hvypos : 0 < s.get_vy0 := by
    rw [hvy]
    positivity
  have hT : 0 < s.get_time_flight := by
    unfold Simulation.get_time_flight
    rw [hsg]
    positivity
  refine ⟨_, _, launchF_spec s fuel hT (hstep ▸ hst) hfuel, ?_, ?_⟩
  · apply List.length_pos.mp
    unfold specTrajectory
    rw [List.length_map, List.length_range]
    apply Nat.ceil_pos.mpr
    rw [hstep]
    exact div_pos hT hst
  · intro p hp
    unfold specTrajectory at hp
    rw [List.mem_map] at hp
    obtain ⟨i, hi, rfl⟩ := hp
    rw [List.mem_range] at hi
    have hcy : s.launch_coordy = c.2 := rfl
    have ht0 : (0 : ℝ) ≤ (i : ℝ) * s.get_step := by
      rw [hstep]
      positivity
    have htlt : (i : ℝ) * s.get_step < s.get_time_flight := by
      have := Nat.lt_ceil.mp hi
      rw [hstep] at this ⊢
      exact (lt_div_iff₀ hst).mp this
    have htmax : s.get_time_flight = 2 * s.get_vy0 / g := by
      unfold Simulation.get_time_flight
      rw [hsg]
    set t : ℝ := (i : ℝ) * s.get_step with htdef
    have hgt : t * g < 2 * s.get_vy0 := by
      rw [htmax] at htlt
      exact (lt_div_iff₀ hg).mp htlt
    have hmul : t * (t * g) ≤ t * (2 * s.get_vy0) :=
      mul_le_mul_of_nonneg_left (le_of_lt hgt) ht0
    simp only [hcy, hsg]
    nlinarith

/-- C6: the analytical queries are computed on demand from the current fields
by exactly the documented formulas (in particular they respond to later field
mutations rather than caching a value). -/
theorem analytic_queries_formulas (s : Simulation) :
    s.get_time_flight = 2 * s.get_vy0 / s.get_g ∧
    s.get_max_height = s.get_vy0 ^ 2 / (2 * s.get_g) ∧
    s.get_range = s.get_v0 ^ 2 * Real.sin (deg2rad (2 * s.get_theta)) / s.get_g ∧
    s.get_range = s.get_v0 ^ 2 * Real.sin (2 * deg2rad s.get_theta) / s.get_g ∧
    (∀ w : ℝ, (s.set_vy0 w).get_time_flight = 2 * w / s.get_g) ∧
    (∀ g2 : ℝ, (s.set_g g2).get_max_height = s.get_vy0 ^ 2 / (2 * g2)) := by
  refine ⟨rfl, rfl, rfl, ?_, fun w => rfl, fun g2 => rfl⟩
  unfold Simulation.get_range
  have harg : deg2rad (2 * s.get_theta) = 2 * deg2rad s.get_theta := by
    unfold deg2rad
    ring
  rw [harg]

/-- C8: the angle setter stores the new angle and leaves every other field,
in particular both cached velocity components, untouched. -/
theorem set_theta_frame (s : Simulation) (theta : ℝ) :
    (s.set_theta theta).launch_angle = theta ∧
    (s.set_theta theta).initial_velocity = s.initial_velocity ∧
    (s.set_theta theta).x_initial_velocity = s.x_initial_velocity ∧
    (s.set_theta theta).y_initial_velocity = s.y_initial_velocity ∧
    (s.set_theta theta).grav_acc = s.grav_acc ∧
    (s.set_theta theta).launch_coordx = s.launch_coordx ∧
    (s.set_theta theta).launch_coordy = s.launch_coordy ∧
    (s.set_theta theta).step = s.step ∧
    (s.set_theta theta).trajectory_array = s.trajectory_array :=
  ⟨rfl, rfl, rfl, rfl, rfl, rfl, rfl, rfl, rfl⟩

/-- C9: a successful `launch` changes no field except `trajectory_array`,
which afterwards holds exactly the returned list. -/
theorem launch_frame (s : Simulation) (fuel : ℕ) (s' : Simulation) (L : List (ℝ × ℝ))
    (h : s.launchF fuel = some (s', Except.ok L)) :
    s'.initial_velocity = s.initial_velocity ∧
    s'.launch_angle = s.launch_angle ∧
    s'.x_initial_velocity = s.x_initial_velocity ∧
    s'.y_initial_velocity = s.y_initial_velocity ∧
    s'.grav_acc = s.grav_acc ∧
    s'.launch_coordx = s.launch_coordx ∧
    s'.launch_coordy = s.launch_coordy ∧
    s'.step = s.step ∧
    s'.trajectory_array = some L := by
  rw [launchF_ok_shape s fuel s' L h]
  exact ⟨rfl, rfl, rfl, rfl, rfl, rfl, rfl, rfl, rfl⟩

/-- C10: when `launch` raises the flight-time exception, the state is entirely
unchanged; in particular a trajectory stored by an earlier successful call
survives. -/
theorem launch_failure_preserves_state (s : Simulation) (fuel : ℕ) (s' : Simulation)
    (e : LaunchError) (h : s.launchF fuel = some (s', Except.error e)) :
    s' = s ∧ s'.trajectory_array = s.trajectory_array := by
  have h1 := (launchF_error_shape s fuel s' e h).1
  exact ⟨h1, by rw [h1]⟩

/-- C7 (counterexample): at speed 10, angle 90, gravity 10, origin and step -1
the flight time is positive, yet `launch` does not fail with any step error:
the sampling loop simply never terminates (it exhausts every fuel bound). -/
theorem step_guard_counterexample : Simulation.launchDiverges exampleNeg :=
  launchF_diverges_of_nonpos_step exampleNeg
    (by rw [exampleNeg_tmax]; norm_num)
    (show (-1 : ℝ) ≤ 0 by norm_num)

/-- C7 (amended): for every state with positive flight time and non-positive
step, `launch` does not terminate — the loop condition `t < flightTime` never
becomes false and no error of any kind is raised.  The `InvalidStepError`
guard described by the specification does not exist in this code base. -/
theorem launch_nonpos_step_diverges (s : Simulation)
    (hT : 0 < s.get_time_flight) (hst : s.get_step ≤ 0) :
    s.launchDiverges :=
  launchF_diverges_of_nonpos_step s hT hst

/-- Witness for the amended C7 at the concrete diverging state. -/
theorem launch_nonpos_step_diverges_witness :
    0 < exampleNeg.get_time_flight ∧ exampleNeg.get_step ≤ 0 ∧
      Simulation.launchDiverges exampleNeg :=
  ⟨by rw [exampleNeg_tmax]; norm_num,
   show (-1 : ℝ) ≤ 0 by norm_num,
   launch_nonpos_step_diverges exampleNeg
     (by rw [exampleNeg_tmax]; norm_num)
     (show (-1 : ℝ) ≤ 0 by norm_num)⟩

/-- Witness for C2 at the concrete state with two samples. -/
theorem launch_samples_formula_witness :
    (0 < exampleSim.get_time_flight ∧ 0 < exampleSim.get_step ∧
      Nat.ceil (exampleSim.get_time_flight / exampleSim.get_step) ≤ 2) ∧
    ∃ (s' : Simulation) (L : List (ℝ × ℝ)),
      exampleSim.launchF 2 = some (s', Except.ok L) ∧
      (∀ i : ℕ, i < L.length ↔ (i : ℝ) * exampleSim.get_step < exampleSim.get_time_flight) ∧
      (∀ (i : ℕ) (hi : i < L.length),
        L.get ⟨i, hi⟩ =
          (exampleSim.get_vx0 * ((i : ℝ) * exampleSim.get_step) + exampleSim.launch_coordx,
           exampleSim.get_vy0 * ((i : ℝ) * exampleSim.get_step) -
             0.5 * exampleSim.get_g * ((i : ℝ) * exampleSim.get_step) ^ 2 +
             exampleSim.launch_coordy)) :=
  ⟨⟨by rw [exampleSim_tmax]; norm_num, by rw [exampleSim_step]; norm_num,
      exampleSim_ceil.le⟩,
   launch_samples_formula exampleSim 2 (by rw [exampleSim_tmax]; norm_num)
     (by rw [exampleSim_step]; norm_num) exampleSim_ceil.le⟩

/-- Witness for C3 at the concrete state with two samples. -/
theorem launch_sample_count_witness :
    (0 < exampleSim.get_time_flight ∧ 0 < exampleSim.get_step ∧
      Nat.ceil (exampleSim.get_time_flight / exampleSim.get_step) ≤ 2) ∧
    ∃ (s' : Simulation) (L : List (ℝ × ℝ)),
      exampleSim.launchF 2 = some (s', Except.ok L) ∧
      L.length = Nat.ceil (exampleSim.get_time_flight / exampleSim.get_step) ∧
      s'.trajectory_array = some L :=
  ⟨⟨by rw [exampleSim_tmax]; norm_num, by rw [exampleSim_step]; norm_num,
      exampleSim_ceil.le⟩,
   launch_sample_count exampleSim 2 (by rw [exampleSim_tmax]; norm_num)
     (by rw [exampleSim_step]; norm_num) exampleSim_ceil.le⟩

/-- Witness for C4 at a concrete infeasible state (angle 0). -/
theorem launch_error_iff_witness :
    exampleBad.get_time_flight ≤ 0 ∧
    exampleBad.launchF 5 =
      some (exampleBad,
        Except.error (LaunchError.flightTimeException exampleBad.get_time_flight)) :=
  ⟨by rw [exampleBad_tmax],
   ((launch_error_iff exampleBad 5).1).mpr (by rw [exampleBad_tmax])⟩

/-- Witness for C5 at the concrete state (speed 10, angle 90, gravity 10,
origin, step 1). -/
theorem launch_succeeds_above_launch_height_witness :
    ((0 : ℝ) < 10 ∧ (0 : ℝ) < 90 ∧ (90 : ℝ) < 180 ∧
      Nat.ceil ((Simulation.init 10 90 10 ((0 : ℝ), (0 : ℝ)) 1).get_time_flight / 1) ≤ 2) ∧
    ∃ (s' : Simulation) (L : List (ℝ × ℝ)),
      (Simulation.init 10 90 10 ((0 : ℝ), (0 : ℝ)) 1).launchF 2 = some (s', Except.ok L) ∧
      L ≠ [] ∧ ∀ p ∈ L, ((0 : ℝ), (0 : ℝ)).2 ≤ p.2 :=
  ⟨⟨by norm_num, by norm_num, by norm_num,
      show Nat.ceil (exampleSim.get_time_flight / exampleSim.get_step) ≤ 2 from
        exampleSim_ceil.le⟩,
   launch_succeeds_above_launch_height 10 90 10 ((0 : ℝ), (0 : ℝ)) 1 2
     (by norm_num) (by norm_num) (by norm_num) (by norm_num) (by norm_num)
     (show Nat.ceil (exampleSim.get_time_flight / exampleSim.get_step) ≤ 2 from
       exampleSim_ceil.le)⟩

theorem exampleBadTraj_launch :
    exampleBadTraj.launchF 3 =
      some (exampleBadTraj,
        Except.error (LaunchError.flightTimeException exampleBadTraj.get_time_flight)) :=
  launchF_error_of_nonpos exampleBadTraj 3 (by rw [exampleBadTraj_tmax])

/-- Witness for C9 at the concrete successful launch. -/
theorem launch_frame_witness :
    exampleSim.launchF 2 = some (exampleSimAfter, Except.ok exampleTraj) ∧
    (exampleSimAfter.initial_velocity = exampleSim.initial_velocity ∧
     exampleSimAfter.launch_angle = exampleSim.launch_angle ∧
     exampleSimAfter.x_initial_velocity = exampleSim.x_initial_velocity ∧
     exampleSimAfter.y_initial_velocity = exampleSim.y_initial_velocity ∧
     exampleSimAfter.grav_acc = exampleSim.grav_acc ∧
     exampleSimAfter.launch_coordx = exampleSim.launch_coordx ∧
     exampleSimAfter.launch_coordy = exampleSim.launch_coordy ∧
     exampleSimAfter.step = exampleSim.step ∧
     exampleSimAfter.trajectory_array = some exampleTraj) :=
  ⟨exampleSim_launch,
   launch_frame exampleSim 2 exampleSimAfter exampleTraj exampleSim_launch⟩

/-- Witness for C10 at a concrete failing launch whose state holds an earlier
trajectory; the failing call leaves it in place. -/
theorem launch_failure_preserves_state_witness :
    exampleBadTraj.launchF 3 =
      some (exampleBadTraj,
        Except.error (LaunchError.flightTimeException exampleBadTraj.get_time_flight)) ∧
    exampleBadTraj.trajectory_array = exampleBadTraj.trajectory_array :=
  ⟨exampleBadTraj_launch,
   (launch_failure_preserves_state exampleBadTraj 3 exampleBadTraj _
     exampleBadTraj_launch).2⟩

end BallisticLaunch
